import Mathlib

/-!
Shallow embedding of the e-commerce backend under src/backend/app, covering
the cart/checkout routes (routes/cart.py, psycopg2 variant), the auth routes
(routes/auth.py) and the parts of the data model they touch.  Tables are
lists of rows; each HTTP handler becomes a function from a database state to
a result together with the resulting state.  Timestamps (created_at,
updated_at) are not modelled: no claim mentions them and they influence no
control flow.
-/

deriving instance DecidableEq for Except

namespace ECommerce

/-- Row of the products table (see routes/cart.py SELECTs and models.py). -/
structure Product where
  id : Nat
  sku : String
  name : String
  description : Option String
  image_url : Option String
  price_cents : Int
  currency_code : String
  active : Bool
deriving DecidableEq

/-- Row of the inventory table: per-product quantity and reserved count. -/
structure InventoryRow where
  product_id : Nat
  quantity : Int
  reserved : Int
deriving DecidableEq

/-- Row of the carts table; status is the string stored by the routes
("open" or "checked_out"). -/
structure CartRow where
  id : Nat
  status : String
deriving DecidableEq

/-- Row of the cart_items table. -/
structure CartItemRow where
  id : Nat
  cart_id : Nat
  product_id : Nat
  quantity : Int
  unit_price_cents : Int
  currency_code : String
deriving DecidableEq

/-- Row of the orders table as inserted by Checkout.post in routes/cart.py. -/
structure OrderRow where
  id : Nat
  cart_id : Nat
  status : String
  customer_email : Option String
  subtotal_cents : Int
  tax_cents : Int
  shipping_cents : Int
  total_cents : Int
  currency_code : String
deriving DecidableEq

/-- Row of the order_items table as inserted by Checkout.post in
routes/cart.py. -/
structure OrderItemRow where
  id : Nat
  order_id : Nat
  product_id : Nat
  product_name : String
  quantity : Int
  unit_price_cents : Int
  line_total_cents : Int
  currency_code : String
deriving DecidableEq

/-- The database state seen by the cart/checkout routes.  Lists keep
insertion order; fresh primary keys come from the counters, so list order
of cart_items coincides with ORDER BY ci.id ASC used by the reads. -/
structure DB where
  products : List Product
  inventory : List InventoryRow
  carts : List CartRow
  cart_items : List CartItemRow
  orders : List OrderRow
  order_items : List OrderItemRow
  next_cart_item_id : Nat
  next_order_id : Nat
  next_order_item_id : Nat
deriving DecidableEq

/-- JSON error payload produced by error_response in app/errors.py:
HTTP status, message, and the optional structured errors dict (here the
available/requested pair attached to insufficient-inventory failures). -/
structure ApiError where
  status : Nat
  message : String
  errors : List (String × Int)
deriving DecidableEq

def err_cart_not_found (cart_id : Nat) : ApiError :=
  ⟨404, "Cart " ++ toString cart_id ++ " not found", []⟩

def err_cart_not_open_modify (cart_id : Nat) : ApiError :=
  ⟨409, "Cart " ++ toString cart_id ++ " is not open and cannot be modified", []⟩

def err_cart_not_open_clear (cart_id : Nat) : ApiError :=
  ⟨409, "Cart " ++ toString cart_id ++ " is not open and cannot be cleared", []⟩

def err_cart_not_open_checkout (cart_id : Nat) : ApiError :=
  ⟨409, "Cart " ++ toString cart_id ++ " is not open and cannot be checked out", []⟩

def err_product_not_found (product_id : Nat) : ApiError :=
  ⟨404, "Product " ++ toString product_id ++ " not found", []⟩

def err_insufficient (product_id : Nat) (available requested : Int) : ApiError :=
  ⟨409, "Insufficient inventory for product " ++ toString product_id,
    [("available", available), ("requested", requested)]⟩

def err_item_not_found (cart_id product_id : Nat) : ApiError :=
  ⟨404, "Cart item not found for product " ++ toString product_id ++
    " in cart " ++ toString cart_id, []⟩

def err_product_unavailable (product_id : Nat) : ApiError :=
  ⟨409, "Product " ++ toString product_id ++ " is no longer available", []⟩

def err_empty_cart : ApiError := ⟨400, "Cannot checkout an empty cart", []⟩

/-- SELECT id, status, ... FROM carts WHERE id=%s (_cart_exists_open). -/
def _cart_exists_open (db : DB) (cart_id : Nat) : Option CartRow :=
  db.carts.find? (fun c => c.id == cart_id)

/-- Product joined with its inventory row, as returned by
_get_product_for_sale: COALESCE(i.quantity, 0), COALESCE(i.reserved, 0). -/
structure ProductForSale where
  id : Nat
  name : String
  price_cents : Int
  currency_code : String
  active : Bool
  quantity : Int
  reserved : Int
deriving DecidableEq

def inventory_of (db : DB) (product_id : Nat) : Option InventoryRow :=
  db.inventory.find? (fun i => i.product_id == product_id)

def _get_product_for_sale (db : DB) (product_id : Nat) : Option ProductForSale :=
  (db.products.find? (fun p => p.id == product_id)).map (fun p =>
    let inv := inventory_of db product_id
    { id := p.id, name := p.name, price_cents := p.price_cents,
      currency_code := p.currency_code, active := p.active,
      quantity := (inv.map (fun i => i.quantity)).getD 0,
      reserved := (inv.map (fun i => i.reserved)).getD 0 })

/-- The product dict nested in each cart item by _get_cart_with_items. -/
structure ProductView where
  id : Nat
  sku : String
  name : String
  description : Option String
  image_url : Option String
  price_cents : Int
  currency_code : String
  active : Bool
  quantity : Int
  reserved : Int
deriving DecidableEq

/-- The item dict built by _get_cart_with_items.

The SELECT behind it lists both `ci.quantity` and
`COALESCE(i.quantity, 0) AS quantity`.  The RealDictCursor of psycopg2 keys
each row by column name, so the second `quantity` column overwrites the
first in the row dict: `r["quantity"]` is the inventory quantity, not the
cart-item quantity.  The item dict copies `r["quantity"]` into its own
`quantity` field, so `quantity` below is the inventory quantity of the
product. -/
structure CartItemView where
  id : Nat
  cart_id : Nat
  product_id : Nat
  quantity : Int
  unit_price_cents : Int
  currency_code : String
  product : ProductView
deriving DecidableEq

/-- The cart dict returned by _get_cart_with_items. -/
structure CartView where
  id : Nat
  status : String
  items : List CartItemView
  subtotal_cents : Int
  currency_code : String
deriving DecidableEq

/-- The helper _compute_cart_subtotal: sum of quantity * unit_price_cents,
with the currency taken from the last item whose currency_code is truthy. -/
def _compute_cart_subtotal (items : List CartItemView) : Int × String :=
  items.foldl
    (fun acc it =>
      (acc.1 + it.quantity * it.unit_price_cents,
       if it.currency_code == "" then acc.2 else it.currency_code))
    (0, "USD")

/-- The rows of the cart_items/products/inventory join in
_get_cart_with_items, in cart_items insertion order (ORDER BY ci.id ASC);
the JOIN on products drops items whose product row is missing, and the
LEFT JOIN on inventory contributes COALESCEd zeros. -/
def cart_item_views (db : DB) (cart_id : Nat) : List CartItemView :=
  (db.cart_items.filter (fun ci => ci.cart_id == cart_id)).filterMap
    (fun ci =>
      (db.products.find? (fun p => p.id == ci.product_id)).map (fun p =>
        let inv := inventory_of db ci.product_id
        let inv_q := (inv.map (fun i => i.quantity)).getD 0
        let inv_r := (inv.map (fun i => i.reserved)).getD 0
        { id := ci.id, cart_id := ci.cart_id, product_id := ci.product_id,
          quantity := inv_q,
          unit_price_cents := ci.unit_price_cents,
          currency_code := ci.currency_code,
          product := { id := ci.product_id, sku := p.sku, name := p.name,
                       description := p.description, image_url := p.image_url,
                       price_cents := p.price_cents,
                       currency_code := p.currency_code, active := p.active,
                       quantity := inv_q, reserved := inv_r } }))

/-- The helper _get_cart_with_items: the cart row plus its item views and
the derived subtotal and currency. -/
def _get_cart_with_items (db : DB) (cart_id : Nat) : Option CartView :=
  (_cart_exists_open db cart_id).map (fun cart =>
    let items := cart_item_views db cart_id
    let st := _compute_cart_subtotal items
    { id := cart.id, status := cart.status, items := items,
      subtotal_cents := st.1, currency_code := st.2 })

/-! ## Cart mutators (routes/cart.py) -/

/-- The INSERT ... ON CONFLICT (cart_id, product_id) DO UPDATE of
CartItemsCollection.post: increment the existing line if one matches the
(cart_id, product_id) key, otherwise insert a fresh line capturing the
product price and currency passed by the caller. -/
def upsert_cart_item (db : DB) (cart_id product_id : Nat) (qty price : Int)
    (curr : String) : DB :=
  if db.cart_items.any (fun ci => ci.cart_id == cart_id && ci.product_id == product_id) then
    { db with cart_items := db.cart_items.map (fun ci =>
        if ci.cart_id == cart_id && ci.product_id == product_id then
          { ci with quantity := ci.quantity + qty }
        else ci) }
  else
    { db with
      cart_items := db.cart_items ++
        [{ id := db.next_cart_item_id, cart_id := cart_id, product_id := product_id,
           quantity := qty, unit_price_cents := price, currency_code := curr }],
      next_cart_item_id := db.next_cart_item_id + 1 }

/-- CartItemsCollection.post: add an item to a cart (or increment the
existing line). -/
def add_item (db : DB) (cart_id product_id : Nat) (add_qty : Int) :
    Except ApiError (Option CartView) × DB :=
  match _cart_exists_open db cart_id with
  | none => (.error (err_cart_not_found cart_id), db)
  | some cart =>
    if cart.status != "open" then
      (.error (err_cart_not_open_modify cart_id), db)
    else
      match _get_product_for_sale db product_id with
      | none => (.error (err_product_not_found product_id), db)
      | some product =>
        if !product.active then
          (.error (err_product_not_found product_id), db)
        else
          let available := product.quantity - product.reserved
          if available < add_qty then
            (.error (err_insufficient product_id available add_qty), db)
          else
            let db1 := upsert_cart_item db cart_id product_id add_qty
                        product.price_cents product.currency_code
            (.ok (_get_cart_with_items db1 cart_id), db1)

/-- CartItemByProduct.put: set the absolute quantity of a product line.
The UPDATE runs after the product and inventory checks; a zero rowcount
(no line for this (cart, product) pair) yields the 404 after an UPDATE
that matched nothing, leaving the state unchanged. -/
def set_item_quantity (db : DB) (cart_id product_id : Nat) (qty : Int) :
    Except ApiError (Option CartView) × DB :=
  match _cart_exists_open db cart_id with
  | none => (.error (err_cart_not_found cart_id), db)
  | some cart =>
    if cart.status != "open" then
      (.error (err_cart_not_open_modify cart_id), db)
    else
      match _get_product_for_sale db product_id with
      | none => (.error (err_product_not_found product_id), db)
      | some product =>
        if !product.active then
          (.error (err_product_not_found product_id), db)
        else
          let available := product.quantity - product.reserved
          if available < qty then
            (.error (err_insufficient product_id available qty), db)
          else
            let matched := db.cart_items.any
              (fun ci => ci.cart_id == cart_id && ci.product_id == product_id)
            if !matched then
              (.error (err_item_not_found cart_id product_id), db)
            else
              let db1 := { db with cart_items := db.cart_items.map (fun ci =>
                if ci.cart_id == cart_id && ci.product_id == product_id then
                  { ci with quantity := qty }
                else ci) }
              (.ok (_get_cart_with_items db1 cart_id), db1)

/-- CartItemByProduct.delete: remove a product line; 404 when the DELETE
matched no row. -/
def remove_item (db : DB) (cart_id product_id : Nat) :
    Except ApiError (Option CartView) × DB :=
  match _cart_exists_open db cart_id with
  | none => (.error (err_cart_not_found cart_id), db)
  | some cart =>
    if cart.status != "open" then
      (.error (err_cart_not_open_modify cart_id), db)
    else
      let matched := db.cart_items.any
        (fun ci => ci.cart_id == cart_id && ci.product_id == product_id)
      if !matched then
        (.error (err_item_not_found cart_id product_id), db)
      else
        let db1 := { db with cart_items := db.cart_items.filter (fun ci =>
          !(ci.cart_id == cart_id && ci.product_id == product_id)) }
        (.ok (_get_cart_with_items db1 cart_id), db1)

/-- CartById.delete: delete every item of the cart, keeping the cart row. -/
def clear_cart (db : DB) (cart_id : Nat) : Except ApiError String × DB :=
  match _cart_exists_open db cart_id with
  | none => (.error (err_cart_not_found cart_id), db)
  | some cart =>
    if cart.status != "open" then
      (.error (err_cart_not_open_clear cart_id), db)
    else
      (.ok "Cart cleared",
       { db with cart_items := db.cart_items.filter (fun ci =>
           !(ci.cart_id == cart_id)) })

/-! ## Checkout (Checkout.post in routes/cart.py) -/

/-- One pass of the validate loop body: re-resolve the product and check
activeness and available inventory against the item quantity from the cart
view (which, per CartItemView.quantity, is the shadowed inventory
quantity). -/
def validate_line (db : DB) (it : CartItemView) : Option ApiError :=
  match _get_product_for_sale db it.product_id with
  | none => some (err_product_unavailable it.product_id)
  | some product =>
    if !product.active then
      some (err_product_unavailable it.product_id)
    else
      let available := product.quantity - product.reserved
      if available < it.quantity then
        some (err_insufficient it.product_id available it.quantity)
      else
        none

/-- First failure of the validate loop, in cart-item order; the loop issues
no writes, so the state is the same at every iteration. -/
def first_validation_error (db : DB) (items : List CartItemView) : Option ApiError :=
  items.findSome? (validate_line db)

/-- The decrement loop: UPDATE inventory SET quantity = quantity - %s WHERE
product_id=%s, once per cart item. -/
def decrement_inventory (db : DB) : List CartItemView → DB
  | [] => db
  | it :: rest =>
    decrement_inventory
      { db with inventory := db.inventory.map (fun inv =>
          if inv.product_id == it.product_id then
            { inv with quantity := inv.quantity - it.quantity }
          else inv) }
      rest

/-- The order_items insert loop: one snapshot row per cart item, copying
the product name, the item quantity and the captured unit price, with the
line total computed as quantity * unit price. -/
def insert_order_items (db : DB) (order_id : Nat) :
    List CartItemView → DB × List OrderItemRow
  | [] => (db, [])
  | it :: rest =>
    let oi : OrderItemRow :=
      { id := db.next_order_item_id, order_id := order_id,
        product_id := it.product_id, product_name := it.product.name,
        quantity := it.quantity, unit_price_cents := it.unit_price_cents,
        line_total_cents := it.quantity * it.unit_price_cents,
        currency_code := it.currency_code }
    let db1 := { db with
      order_items := db.order_items ++ [oi],
      next_order_item_id := db.next_order_item_id + 1 }
    let rec_result := insert_order_items db1 order_id rest
    (rec_result.1, oi :: rec_result.2)

/-- The order payload returned by Checkout.post: the orders row plus the
order_items rows inserted for it. -/
structure OrderResult where
  order : OrderRow
  items : List OrderItemRow
deriving DecidableEq

/-- Checkout.post in routes/cart.py: resolve the cart, reject non-open or
empty carts, validate every line (product active, available inventory),
then decrement inventory, insert the order and its item snapshots, mark the
cart checked_out and delete its items. -/
def checkout (db : DB) (cart_id : Nat) (customer_email : Option String) :
    Except ApiError OrderResult × DB :=
  match _cart_exists_open db cart_id with
  | none => (.error (err_cart_not_found cart_id), db)
  | some cart =>
    if cart.status != "open" then
      (.error (err_cart_not_open_checkout cart_id), db)
    else
      match _get_cart_with_items db cart_id with
      | none => (.error err_empty_cart, db)
      | some cart_full =>
        if cart_full.items.length == 0 then
          (.error err_empty_cart, db)
        else
          match first_validation_error db cart_full.items with
          | some e => (.error e, db)
          | none =>
            let db1 := decrement_inventory db cart_full.items
            let subtotal_cents := cart_full.subtotal_cents
            let tax_cents : Int := 0
            let shipping_cents : Int := 0
            let total_cents := subtotal_cents + tax_cents + shipping_cents
            let order : OrderRow :=
              { id := db1.next_order_id, cart_id := cart_id, status := "placed",
                customer_email := customer_email,
                subtotal_cents := subtotal_cents, tax_cents := tax_cents,
                shipping_cents := shipping_cents, total_cents := total_cents,
                currency_code := cart_full.currency_code }
            let db2 := { db1 with
              orders := db1.orders ++ [order],
              next_order_id := db1.next_order_id + 1 }
            let ins : DB × List OrderItemRow :=
              insert_order_items db2 order.id cart_full.items
            let db3 : DB := ins.1
            let db4 := { db3 with carts := db3.carts.map (fun (c : CartRow) =>
              if c.id == cart_id then { c with status := "checked_out" } else c) }
            let db5 := { db4 with cart_items := db4.cart_items.filter (fun ci =>
              !(ci.cart_id == cart_id)) }
            (.ok { order := order, items := ins.2 }, db5)

/-! ## Accounts and auth (routes/auth.py, models.py User) -/

/-- Row of the users table (models.py User); email has a unique
constraint. -/
structure UserRow where
  id : Nat
  email : String
  password_hash : String
  name : Option String
deriving DecidableEq

/-- The database state seen by the auth routes. -/
structure AuthDB where
  users : List UserRow
  next_user_id : Nat
deriving DecidableEq

/-- Python str.lower(), as applied to emails by Register.post and
Login.post: lowercase each character (emails are ASCII, where Python and
Unicode lowercasing agree). -/
def py_lower (s : String) : String := ⟨s.data.map Char.toLower⟩

/-- Modelled from the spec: password hashing (passlib bcrypt in
app/auth.py) is an external collaborator the spec scopes out, specified
only at its interface.  Modelled as an injective encoding so that
verification succeeds exactly on the hashed password. -/
def hash_password (password : String) : String := "bcrypt$" ++ password

/-- Modelled from the spec: verification of a plaintext password against a
stored hash, the counterpart of hash_password. -/
def verify_password (password password_hash : String) : Bool :=
  hash_password password == password_hash

def err_email_taken : ApiError := ⟨409, "Email already registered", []⟩

def err_invalid_credentials : ApiError := ⟨401, "Invalid credentials", []⟩

/-- The JSON produced by the app-level 500 handler in app/__init__.py when
an unhandled exception (here: the users.email unique-constraint violation
raised at commit) escapes the route. -/
def err_internal : ApiError := ⟨500, "Internal server error", []⟩

/-- Register.post: the duplicate check compares the raw payload email
(SQL = is case-sensitive) while the insert stores the lowercased email;
a lowercased email that collides with a stored row violates the unique
constraint at commit and surfaces as a 500. -/
def register (db : AuthDB) (email password : String) (name : Option String) :
    Except ApiError UserRow × AuthDB :=
  match db.users.find? (fun u => u.email == email) with
  | some _ => (.error err_email_taken, db)
  | none =>
    let lowered := py_lower email
    if db.users.any (fun u => u.email == lowered) then
      (.error err_internal, db)
    else
      let u : UserRow := { id := db.next_user_id, email := lowered,
                           password_hash := hash_password password, name := name }
      (.ok u, { users := db.users ++ [u], next_user_id := db.next_user_id + 1 })

/-- Login.post: look up by lowercased email, verify the password, and on
either failure abort with the same 401 payload.  The success value is the
user id the issued token carries (create_access_token user.id). -/
def login (db : AuthDB) (email password : String) : Except ApiError Nat :=
  match db.users.find? (fun u => u.email == py_lower email) with
  | none => .error err_invalid_credentials
  | some u =>
    if !verify_password password u.password_hash then
      .error err_invalid_credentials
    else
      .ok u.id

/-! ## Observations and operation sequences -/

/-- Status of the cart row a route would resolve for this id. -/
def cart_status (db : DB) (cart_id : Nat) : Option String :=
  (db.carts.find? (fun c => c.id == cart_id)).map (fun c => c.status)

/-- The cart_items rows belonging to a cart. -/
def cart_items_of (db : DB) (cart_id : Nat) : List CartItemRow :=
  db.cart_items.filter (fun ci => ci.cart_id == cart_id)

/-- The cart_items rows for one (cart, product) key. -/
def lines_for (db : DB) (cart_id product_id : Nat) : List CartItemRow :=
  db.cart_items.filter (fun ci => ci.cart_id == cart_id && ci.product_id == product_id)

/-- No two cart_items rows share a (cart_id, product_id) key — the
uq_cart_item_cart_product unique constraint of models.py. -/
def pairs_unique (db : DB) : Prop :=
  db.cart_items.Pairwise (fun x y => ¬(x.cart_id = y.cart_id ∧ x.product_id = y.product_id))

/-- The order_items rows recorded for an order, as any read of the order
returns them. -/
def order_items_view (db : DB) (order_id : Nat) : List OrderItemRow :=
  db.order_items.filter (fun oi => oi.order_id == order_id)

/-- Modelled from the spec: the repository exposes no product-update route
under src (routes/products.py only lists, gets and creates), but the spec
speaks of later product mutation — "name change, price change,
deactivation", order snapshots "immune to later product edits".  Modelled
as an update of the name, price and active flag of the product row. -/
def update_product (db : DB) (product_id : Nat) (new_name : String)
    (new_price : Int) (new_active : Bool) : DB :=
  { db with products := db.products.map (fun p =>
      if p.id == product_id then
        { p with name := new_name, price_cents := new_price, active := new_active }
      else p) }

/-- One cart-facing operation of routes/cart.py. -/
inductive CartOp where
  | add (cart_id product_id : Nat) (qty : Int)
  | setQty (cart_id product_id : Nat) (qty : Int)
  | remove (cart_id product_id : Nat)
  | clear (cart_id : Nat)
  | doCheckout (cart_id : Nat) (email : Option String)
deriving DecidableEq

/-- The state after one operation (its response discarded). -/
def applyOp (db : DB) : CartOp → DB
  | .add c p q => (add_item db c p q).2
  | .setQty c p q => (set_item_quantity db c p q).2
  | .remove c p => (remove_item db c p).2
  | .clear c => (clear_cart db c).2
  | .doCheckout c em => (checkout db c em).2

/-- The state after a sequence of operations. -/
def applyOps (db : DB) (ops : List CartOp) : DB := ops.foldl applyOp db

/-- The orders row of a successful checkout response, if any. -/
def checkout_result_order (db : DB) (cart_id : Nat) (email : Option String) :
    Option OrderRow :=
  match (checkout db cart_id email).1 with
  | .ok r => some r.order
  | .error _ => none

/-- The HTTP status of an error result, if the result is an error. -/
def result_error_status {α : Type} : Except ApiError α → Option Nat
  | .error e => some e.status
  | .ok _ => none

/-! ## Concrete states used as witnesses and counterexamples -/

/-- An active 100-cent product with id 2. -/
def widget : Product :=
  { id := 2, sku := "SKU-2", name := "Widget", description := none,
    image_url := none, price_cents := 100, currency_code := "USD", active := true }

/-- The same product, deactivated. -/
def widgetOff : Product := { widget with active := false }

/-- Open cart 1 holding one unit of a product that has been deactivated
since it was added: checkout must fail its availability re-check. -/
def dbUnavail : DB :=
  { products := [widgetOff], inventory := [⟨2, 5, 0⟩], carts := [⟨1, "open"⟩],
    cart_items := [⟨1, 1, 2, 1, 100, "USD"⟩], orders := [], order_items := [],
    next_cart_item_id := 2, next_order_id := 1, next_order_item_id := 1 }

/-- Open cart 1 holding 5 units of product 2 while only 3 are available:
the post-add race the checkout re-check must close. -/
def dbRace : DB :=
  { products := [widget], inventory := [⟨2, 3, 0⟩], carts := [⟨1, "open"⟩],
    cart_items := [⟨1, 1, 2, 5, 100, "USD"⟩], orders := [], order_items := [],
    next_cart_item_id := 2, next_order_id := 1, next_order_item_id := 1 }

/-- Product A: 500 cents, stock 10 (spec scenario 1). -/
def prodA : Product :=
  { id := 1, sku := "SKU-A", name := "Product A", description := none,
    image_url := none, price_cents := 500, currency_code := "USD", active := true }

/-- Product B: 300 cents, stock 10 (spec scenario 1). -/
def prodB : Product :=
  { id := 2, sku := "SKU-B", name := "Product B", description := none,
    image_url := none, price_cents := 300, currency_code := "USD", active := true }

/-- Spec scenario 1: open cart 1 with 2 units of product A and 1 unit of
product B, both products stocked at 10. -/
def dbScenario1 : DB :=
  { products := [prodA, prodB], inventory := [⟨1, 10, 0⟩, ⟨2, 10, 0⟩],
    carts := [⟨1, "open"⟩],
    cart_items := [⟨1, 1, 1, 2, 500, "USD"⟩, ⟨2, 1, 2, 1, 300, "USD"⟩],
    orders := [], order_items := [],
    next_cart_item_id := 3, next_order_id := 1, next_order_item_id := 1 }

/-- Open cart 1 with no line for product 2, which is active with 3
available units. -/
def dbNoLine : DB :=
  { products := [widget], inventory := [⟨2, 3, 0⟩], carts := [⟨1, "open"⟩],
    cart_items := [], orders := [], order_items := [],
    next_cart_item_id := 1, next_order_id := 1, next_order_item_id := 1 }

/-- One registered user, stored with the lowercased email. -/
def dbUsers : AuthDB :=
  { users := [⟨1, "user@example.com", hash_password "hunter2secret", none⟩],
    next_user_id := 2 }

/-- Cart 1 already checked out, with product 2 still in the catalog. -/
def dbCheckedOut : DB :=
  { products := [widget], inventory := [⟨2, 5, 0⟩],
    carts := [⟨1, "checked_out"⟩], cart_items := [], orders := [],
    order_items := [], next_cart_item_id := 1, next_order_id := 2,
    next_order_item_id := 2 }

/-- Open cart 1 holding one unit of product 2 (stock 1): the smallest
checkout that succeeds. -/
def dbSnap : DB :=
  { products := [widget], inventory := [⟨2, 1, 0⟩], carts := [⟨1, "open"⟩],
    cart_items := [⟨1, 1, 2, 1, 100, "USD"⟩], orders := [], order_items := [],
    next_cart_item_id := 2, next_order_id := 1, next_order_item_id := 1 }

/-- dbNoLine after adding one unit of product 2. -/
def dbAdd1 : DB :=
  { dbNoLine with
    cart_items := [⟨1, 1, 2, 1, 100, "USD"⟩],
    next_cart_item_id := 2 }

/-- dbAdd1 after adding two more units of product 2. -/
def dbAdd2 : DB :=
  { dbAdd1 with cart_items := [⟨1, 1, 2, 3, 100, "USD"⟩] }

/-- The widget after a price change to 999 cents. -/
def widget999 : Product := { widget with price_cents := 999 }

/-- Open cart 1 with one line for product 2 captured at 100 cents, while
the product now costs 999 cents. -/
def dbPriceChange : DB :=
  { products := [widget999], inventory := [⟨2, 10, 0⟩], carts := [⟨1, "open"⟩],
    cart_items := [⟨1, 1, 2, 1, 100, "USD"⟩], orders := [], order_items := [],
    next_cart_item_id := 2, next_order_id := 1, next_order_item_id := 1 }

/-- dbPriceChange after adding two more units of product 2. -/
def dbPriceChange1 : DB :=
  { dbPriceChange with cart_items := [⟨1, 1, 2, 3, 100, "USD"⟩] }

/-- The cart view _get_cart_with_items returns for dbSnap. -/
def cvSnap : CartView :=
  { id := 1, status := "open",
    items := [{ id := 1, cart_id := 1, product_id := 2, quantity := 1,
                unit_price_cents := 100, currency_code := "USD",
                product := { id := 2, sku := "SKU-2", name := "Widget",
                             description := none, image_url := none,
                             price_cents := 100, currency_code := "USD",
                             active := true, quantity := 1, reserved := 0 } }],
    subtotal_cents := 100, currency_code := "USD" }

/-- The orders row checkout creates for dbSnap. -/
def orderSnap : OrderRow :=
  { id := 1, cart_id := 1, status := "placed", customer_email := none,
    subtotal_cents := 100, tax_cents := 0, shipping_cents := 0,
    total_cents := 100, currency_code := "USD" }

/-- The order_items row checkout creates for dbSnap. -/
def oiSnap : OrderItemRow :=
  { id := 1, order_id := 1, product_id := 2, product_name := "Widget",
    quantity := 1, unit_price_cents := 100, line_total_cents := 100,
    currency_code := "USD" }

/-- The checkout response for dbSnap. -/
def rSnap : OrderResult := { order := orderSnap, items := [oiSnap] }

/-- dbSnap after its checkout. -/
def dbSnapAfter : DB :=
  { products := [widget], inventory := [⟨2, 0, 0⟩],
    carts := [⟨1, "checked_out"⟩], cart_items := [], orders := [orderSnap],
    order_items := [oiSnap], next_cart_item_id := 2, next_order_id := 2,
    next_order_item_id := 2 }

/-! ## Theorems -/

/-- Every error return of Checkout.post happens before the first write:
the resulting state is the input state. -/
theorem checkout_error_snd (db : DB) (cart_id : Nat) (email : Option String)
    (e : ApiError) (db2 : DB)
    (h : checkout db cart_id email = (.error e, db2)) : db2 = db := by
  unfold checkout at h
  repeat' split at h
  all_goals first
    | (injection h with h1 h2; exact h2.symm)
    | (exfalso; injection h with h1 h2; exact Except.noConfusion h1)

/-- C1: checkout is all-or-nothing on failure: whenever Checkout.post
returns an error — in particular when a line fails the availability or
inventory re-check — no inventory row is decremented, no order row and no
order-item row is created, and both the cart row and the cart items are
unchanged. -/
theorem checkout_all_or_nothing_on_failure (db : DB) (cart_id : Nat)
    (email : Option String) (e : ApiError) (db2 : DB)
    (h : checkout db cart_id email = (.error e, db2)) :
    db2.inventory = db.inventory ∧ db2.orders = db.orders ∧
    db2.order_items = db.order_items ∧ db2.carts = db.carts ∧
    db2.cart_items = db.cart_items := by
  have hdb := checkout_error_snd db cart_id email e db2 h
  subst hdb
  exact ⟨rfl, rfl, rfl, rfl, rfl⟩

/-- Witness for C1: a cart whose product was deactivated after it was
added fails the re-check with ProductUnavailable, and the state is
untouched. -/
theorem checkout_all_or_nothing_on_failure_witness :
    checkout dbUnavail 1 none = (.error (err_product_unavailable 2), dbUnavail) ∧
    (dbUnavail.inventory = dbUnavail.inventory ∧
     dbUnavail.orders = dbUnavail.orders ∧
     dbUnavail.order_items = dbUnavail.order_items ∧
     dbUnavail.carts = dbUnavail.carts ∧
     dbUnavail.cart_items = dbUnavail.cart_items) :=
  ⟨by decide,
   checkout_all_or_nothing_on_failure dbUnavail 1 none
     (err_product_unavailable 2) dbUnavail (by decide)⟩

/-- C2 (code bug): on a cart holding 5 units of product 2 with only 3
available, the claim requires checkout to fail InsufficientInventory with
available 3 and requested 5 and to leave state unchanged.  Instead it
succeeds: the duplicate `quantity` column in the cart-items SELECT makes
the re-check compare the inventory quantity against itself, and the
decrement then subtracts the inventory quantity (3), emptying the stock
and pricing the order at 3 units (300 cents) instead of the 5 in the
cart. -/
theorem checkout_recheck_shadowing_divergence :
    lines_for dbRace 1 2 = [⟨1, 1, 2, 5, 100, "USD"⟩] ∧
    (_get_product_for_sale dbRace 2).map
      (fun p => p.quantity - p.reserved) = some 3 ∧
    checkout dbRace 1 none ≠ (.error (err_insufficient 2 3 5), dbRace) ∧
    (checkout_result_order dbRace 1 none).map
      (fun o => o.subtotal_cents) = some 300 ∧
    (checkout dbRace 1 none).2.inventory = [⟨2, 0, 0⟩] := by
  refine ⟨by decide, by decide, by decide, by decide, by decide⟩

/-- C3 (code bug): on spec scenario 1 (2 units of product A at 500 cents
and 1 unit of product B at 300 cents, both stocked at 10), the claim
requires subtotal 1300, stocks 8 and 9.  The checkout does mark the cart
checked_out and delete its items, but the shadowed quantity column makes
it bill and decrement the full stock of each product: subtotal 8000 and
both stocks 0. -/
theorem checkout_scenario1_divergence :
    cart_items_of dbScenario1 1 =
      [⟨1, 1, 1, 2, 500, "USD"⟩, ⟨2, 1, 2, 1, 300, "USD"⟩] ∧
    (checkout_result_order dbScenario1 1 none).map
      (fun o => (o.subtotal_cents, o.total_cents)) = some (8000, 8000) ∧
    (checkout dbScenario1 1 none).2.inventory = [⟨1, 0, 0⟩, ⟨2, 0, 0⟩] ∧
    cart_status (checkout dbScenario1 1 none).2 1 = some "checked_out" ∧
    cart_items_of (checkout dbScenario1 1 none).2 1 = [] := by
  refine ⟨by decide, by decide, by decide, by decide, by decide⟩

/-- C8 (code bug): with "user@example.com" stored, registering the
case-variant "User@example.com" must fail EmailTaken per the claim.  The
duplicate check compares the raw payload email against the lowercased
stored ones and misses, so the insert of the lowercased email violates
the users.email unique constraint and surfaces as a 500, not as the 409
EmailTaken (which the exact-case duplicate does get).  No account is
created in either case. -/
theorem register_case_variant_divergence :
    register dbUsers "User@example.com" "password123" none =
      (.error err_internal, dbUsers) ∧
    register dbUsers "user@example.com" "password123" none =
      (.error err_email_taken, dbUsers) := by
  refine ⟨by decide, by decide⟩

/-- C9: login failures are indistinguishable: an unknown email and a known
email with a mismatched password both return exactly the 401
InvalidCredentials payload, so the two runs produce the same observable
result. -/
theorem login_failures_indistinguishable (db1 db2 : AuthDB)
    (e1 p1 e2 p2 : String) (u : UserRow)
    (h1 : db1.users.find? (fun u => u.email == py_lower e1) = none)
    (h2 : db2.users.find? (fun u => u.email == py_lower e2) = some u)
    (h3 : verify_password p2 u.password_hash = false) :
    login db1 e1 p1 = .error err_invalid_credentials ∧
    login db2 e2 p2 = .error err_invalid_credentials ∧
    login db1 e1 p1 = login db2 e2 p2 := by
  have ha : login db1 e1 p1 = .error err_invalid_credentials := by
    unfold login
    rw [h1]
  have hb : login db2 e2 p2 = .error err_invalid_credentials := by
    unfold login
    rw [h2]
    simp [h3]
  exact ⟨ha, hb, ha.trans hb.symm⟩

/-- Witness for C9: a ghost email and a wrong password against the stored
user both yield the same InvalidCredentials result. -/
theorem login_failures_indistinguishable_witness :
    dbUsers.users.find? (fun u => u.email == py_lower "ghost@example.com") = none ∧
    dbUsers.users.find? (fun u => u.email == py_lower "User@Example.COM") =
      some ⟨1, "user@example.com", hash_password "hunter2secret", none⟩ ∧
    verify_password "wrongpass"
      (UserRow.mk 1 "user@example.com" (hash_password "hunter2secret") none).password_hash = false ∧
    (login dbUsers "ghost@example.com" "anypw" = .error err_invalid_credentials ∧
     login dbUsers "User@Example.COM" "wrongpass" = .error err_invalid_credentials ∧
     login dbUsers "ghost@example.com" "anypw" = login dbUsers "User@Example.COM" "wrongpass") :=
  ⟨by decide, by decide, by decide,
   login_failures_indistinguishable dbUsers dbUsers "ghost@example.com" "anypw"
     "User@Example.COM" "wrongpass"
     ⟨1, "user@example.com", hash_password "hunter2secret", none⟩
     (by decide) (by decide) (by decide)⟩

/-- C7 counterexample: an open cart with no line for product 2, which is
active with 3 available units.  Requesting quantity 5 hits the inventory
check before the line lookup, so the call fails with the 409
insufficient-inventory error, not with NotFound as the claim states. -/
theorem set_item_quantity_missing_line_counterexample :
    cart_status dbNoLine 1 = some "open" ∧
    lines_for dbNoLine 1 2 = [] ∧
    set_item_quantity dbNoLine 1 2 5 = (.error (err_insufficient 2 3 5), dbNoLine) ∧
    result_error_status (set_item_quantity dbNoLine 1 2 5).1 = some 409 ∧
    set_item_quantity dbNoLine 1 2 5 ≠ (.error (err_item_not_found 1 2), dbNoLine) := by
  refine ⟨by decide, by decide, by decide, by decide, by decide⟩

/-- C7 amended: for an open cart and an active product, the inventory
check runs against the requested absolute quantity and fires first: if
available < qty the call fails InsufficientInventory (cart unchanged)
whether or not a line exists; if the check passes and no line exists for
this (cart, product) pair, the call fails NotFound and the cart is
unchanged. -/
theorem set_item_quantity_missing_line_amended (db : DB)
    (cart_id product_id : Nat) (qty : Int) (c : CartRow) (p : ProductForSale)
    (hc : _cart_exists_open db cart_id = some c) (hopen : c.status = "open")
    (hp : _get_product_for_sale db product_id = some p) (hact : p.active = true) :
    (p.quantity - p.reserved < qty →
      set_item_quantity db cart_id product_id qty =
        (.error (err_insufficient product_id (p.quantity - p.reserved) qty), db)) ∧
    (¬(p.quantity - p.reserved < qty) →
      lines_for db cart_id product_id = [] →
      set_item_quantity db cart_id product_id qty =
        (.error (err_item_not_found cart_id product_id), db)) := by
  constructor
  · intro hlt
    unfold set_item_quantity
    rw [hc, hp]
    simp [hopen, hact, hlt]
  · intro hge hlines
    unfold set_item_quantity
    rw [hc, hp]
    have hany : (db.cart_items.any
        (fun ci => ci.cart_id == cart_id && ci.product_id == product_id)) = false := by
      rw [List.any_eq_false]
      intro ci hci
      have := List.filter_eq_nil_iff.mp hlines ci hci
      simpa using this
    simp [hopen, hact, hge, hany]

/-- Witness for the amended C7: on the concrete dbNoLine state, quantity 5
trips the inventory check (409) while quantity 2 reaches the line lookup
and fails NotFound. -/
theorem set_item_quantity_missing_line_amended_witness :
    _cart_exists_open dbNoLine 1 = some ⟨1, "open"⟩ ∧
    _get_product_for_sale dbNoLine 2 = some ⟨2, "Widget", 100, "USD", true, 3, 0⟩ ∧
    set_item_quantity dbNoLine 1 2 5 =
      (.error (err_insufficient 2 (3 - 0) 5), dbNoLine) ∧
    set_item_quantity dbNoLine 1 2 2 =
      (.error (err_item_not_found 1 2), dbNoLine) :=
  ⟨by decide, by decide,
   (set_item_quantity_missing_line_amended dbNoLine 1 2 5 ⟨1, "open"⟩
     ⟨2, "Widget", 100, "USD", true, 3, 0⟩ (by decide) rfl (by decide) rfl).1
     (by decide),
   (set_item_quantity_missing_line_amended dbNoLine 1 2 2 ⟨1, "open"⟩
     ⟨2, "Widget", 100, "USD", true, 3, 0⟩ (by decide) rfl (by decide) rfl).2
     (by decide) (by decide)⟩

/-- Filtering after a map commutes to mapping after the filter when the
map does not change the filter predicate. -/
theorem filter_map_comm {α : Type} (l : List α) (f : α → α) (q : α → Bool)
    (hq : ∀ x, q (f x) = q x) :
    (l.map f).filter q = (l.filter q).map f := by
  induction l with
  | nil => rfl
  | cons hd tl ih =>
    by_cases hhd : q hd = true
    · simp only [List.map_cons, List.filter_cons, hq, hhd, if_true, List.map, ih]
    · have hhd' : q hd = false := by
        cases hq2 : q hd
        · rfl
        · exact absurd hq2 hhd
      simp only [List.map_cons, List.filter_cons, hq, hhd', Bool.false_eq_true,
        if_false, ih]

/-- A successful add_item reaches the upsert: the resulting state is the
upsert of the input state with the current price and currency of the
product. -/
theorem add_item_ok_snd (db : DB) (c p : Nat) (q : Int) (v : Option CartView)
    (db1 : DB) (h : add_item db c p q = (.ok v, db1)) :
    ∃ prod : ProductForSale, _get_product_for_sale db p = some prod ∧
      db1 = upsert_cart_item db c p q prod.price_cents prod.currency_code := by
  unfold add_item at h
  repeat' split at h
  all_goals try (exfalso; injection h with h1a h1b; exact Except.noConfusion h1a)
  simp only [] at h
  split at h
  · exfalso; injection h with h1a h1b; exact Except.noConfusion h1a
  · injection h with h1a h1b
    exact ⟨_, by assumption, h1b.symm⟩

/-- The cart_items update applied by CartItemByProduct.put. -/
def set_qty_update (db : DB) (c p : Nat) (q : Int) : DB :=
  { db with cart_items := db.cart_items.map (fun ci =>
      if ci.cart_id == c && ci.product_id == p then { ci with quantity := q }
      else ci) }

/-- The cart_items deletion applied by CartItemByProduct.delete. -/
def remove_update (db : DB) (c p : Nat) : DB :=
  { db with cart_items := db.cart_items.filter (fun ci =>
      !(ci.cart_id == c && ci.product_id == p)) }

/-- The cart_items deletion applied by CartById.delete. -/
def clear_update (db : DB) (c : Nat) : DB :=
  { db with cart_items := db.cart_items.filter (fun ci => !(ci.cart_id == c)) }

/-- The state left by set_item_quantity: unchanged, or the line update. -/
theorem set_item_quantity_snd (db : DB) (c p : Nat) (q : Int) :
    (set_item_quantity db c p q).2 = db ∨
    (set_item_quantity db c p q).2 = set_qty_update db c p q := by
  unfold set_item_quantity set_qty_update
  repeat' split
  all_goals try (left; rfl)
  all_goals simp only []
  all_goals repeat' split
  all_goals first | (left; rfl) | (right; rfl)

/-- The state left by add_item: unchanged, or an upsert. -/
theorem add_item_snd (db : DB) (c p : Nat) (q : Int) :
    (add_item db c p q).2 = db ∨
    ∃ price curr, (add_item db c p q).2 = upsert_cart_item db c p q price curr := by
  unfold add_item
  repeat' split
  all_goals try (left; rfl)
  simp only []
  split
  · left; rfl
  · right; exact ⟨_, _, rfl⟩

/-- The state left by remove_item: unchanged, or the line deletion. -/
theorem remove_item_snd (db : DB) (c p : Nat) :
    (remove_item db c p).2 = db ∨ (remove_item db c p).2 = remove_update db c p := by
  unfold remove_item remove_update
  repeat' split
  all_goals try (left; rfl)
  all_goals simp only []
  all_goals repeat' split
  all_goals first | (left; rfl) | (right; rfl)

/-- The state left by clear_cart: unchanged, or the cart-wide deletion. -/
theorem clear_cart_snd (db : DB) (c : Nat) :
    (clear_cart db c).2 = db ∨ (clear_cart db c).2 = clear_update db c := by
  unfold clear_cart clear_update
  repeat' split
  all_goals first | (left; rfl) | (right; rfl)

/-- The decrement loop touches only the inventory table. -/
theorem decrement_inventory_frame (its : List CartItemView) :
    ∀ db : DB, (decrement_inventory db its).products = db.products ∧
      (decrement_inventory db its).carts = db.carts ∧
      (decrement_inventory db its).cart_items = db.cart_items ∧
      (decrement_inventory db its).orders = db.orders ∧
      (decrement_inventory db its).order_items = db.order_items ∧
      (decrement_inventory db its).next_cart_item_id = db.next_cart_item_id ∧
      (decrement_inventory db its).next_order_id = db.next_order_id ∧
      (decrement_inventory db its).next_order_item_id = db.next_order_item_id := by
  induction its with
  | nil => intro db; exact ⟨rfl, rfl, rfl, rfl, rfl, rfl, rfl, rfl⟩
  | cons hd tl ih => intro db; exact ih _

/-- The order-items insert loop touches only the order_items table and
its id counter. -/
theorem insert_order_items_frame (its : List CartItemView) :
    ∀ (db : DB) (oid : Nat),
      (insert_order_items db oid its).1.products = db.products ∧
      (insert_order_items db oid its).1.inventory = db.inventory ∧
      (insert_order_items db oid its).1.carts = db.carts ∧
      (insert_order_items db oid its).1.cart_items = db.cart_items ∧
      (insert_order_items db oid its).1.orders = db.orders ∧
      (insert_order_items db oid its).1.next_cart_item_id = db.next_cart_item_id ∧
      (insert_order_items db oid its).1.next_order_id = db.next_order_id := by
  induction its with
  | nil => intro db oid; exact ⟨rfl, rfl, rfl, rfl, rfl, rfl, rfl⟩
  | cons hd tl ih => intro db oid; exact ih _ _

/-- The order-items insert loop appends exactly the rows it returns. -/
theorem insert_order_items_order_items (its : List CartItemView) :
    ∀ (db : DB) (oid : Nat),
      (insert_order_items db oid its).1.order_items =
        db.order_items ++ (insert_order_items db oid its).2 := by
  induction its with
  | nil => intro db oid; simp [insert_order_items]
  | cons hd tl ih =>
    intro db oid
    simp only [insert_order_items]
    rw [ih]
    simp

/-- Every row returned by the order-items insert loop carries the order
id it was inserted for. -/
theorem insert_order_items_ids (its : List CartItemView) :
    ∀ (db : DB) (oid : Nat) (oi : OrderItemRow),
      oi ∈ (insert_order_items db oid its).2 → oi.order_id = oid := by
  induction its with
  | nil => intro db oid oi h; simp [insert_order_items] at h
  | cons hd tl ih =>
    intro db oid oi h
    simp only [insert_order_items, List.mem_cons] at h
    rcases h with h | h
    · rw [h]
    · exact ih _ _ _ h

/-- The snapshot values of the inserted order items are exactly the
name, quantity, captured unit price and quantity-times-price of the cart
view lines they were built from. -/
theorem insert_order_items_values (its : List CartItemView) :
    ∀ (db : DB) (oid : Nat),
      (insert_order_items db oid its).2.map (fun oi =>
        (oi.product_name, oi.quantity, oi.unit_price_cents, oi.line_total_cents)) =
      its.map (fun it =>
        (it.product.name, it.quantity, it.unit_price_cents,
         it.quantity * it.unit_price_cents)) := by
  induction its with
  | nil => intro db oid; rfl
  | cons hd tl ih =>
    intro db oid
    simp only [insert_order_items, List.map_cons, ih]

/-- The decrement loop leaves cart_items unchanged. -/
theorem dec_cart_items (its : List CartItemView) (db : DB) :
    (decrement_inventory db its).cart_items = db.cart_items :=
  (decrement_inventory_frame its db).2.2.1

/-- The decrement loop leaves carts unchanged. -/
theorem dec_carts (its : List CartItemView) (db : DB) :
    (decrement_inventory db its).carts = db.carts :=
  (decrement_inventory_frame its db).2.1

/-- The decrement loop leaves orders unchanged. -/
theorem dec_orders (its : List CartItemView) (db : DB) :
    (decrement_inventory db its).orders = db.orders :=
  (decrement_inventory_frame its db).2.2.2.1

/-- The decrement loop leaves order_items unchanged. -/
theorem dec_order_items (its : List CartItemView) (db : DB) :
    (decrement_inventory db its).order_items = db.order_items :=
  (decrement_inventory_frame its db).2.2.2.2.1

/-- The decrement loop leaves the order id counter unchanged. -/
theorem dec_next_order_id (its : List CartItemView) (db : DB) :
    (decrement_inventory db its).next_order_id = db.next_order_id :=
  (decrement_inventory_frame its db).2.2.2.2.2.2.1

/-- The order-items insert loop leaves cart_items unchanged. -/
theorem ins_cart_items (its : List CartItemView) (db : DB) (oid : Nat) :
    (insert_order_items db oid its).1.cart_items = db.cart_items :=
  (insert_order_items_frame its db oid).2.2.2.1

/-- The order-items insert loop leaves carts unchanged. -/
theorem ins_carts (its : List CartItemView) (db : DB) (oid : Nat) :
    (insert_order_items db oid its).1.carts = db.carts :=
  (insert_order_items_frame its db oid).2.2.1

/-- The order-items insert loop leaves orders unchanged. -/
theorem ins_orders (its : List CartItemView) (db : DB) (oid : Nat) :
    (insert_order_items db oid its).1.orders = db.orders :=
  (insert_order_items_frame its db oid).2.2.2.2.1

/-- A successful checkout deletes exactly the items of its cart, marks
exactly that cart checked_out, and requires the cart to have been open. -/
theorem checkout_ok_snd (db : DB) (c : Nat) (em : Option String)
    (r : OrderResult) (db' : DB) (h : checkout db c em = (.ok r, db')) :
    db'.cart_items = db.cart_items.filter (fun ci => !(ci.cart_id == c)) ∧
    db'.carts = db.carts.map (fun cr =>
      if cr.id == c then { cr with status := "checked_out" } else cr) ∧
    ∃ cart : CartRow, _cart_exists_open db c = some cart ∧ cart.status = "open" := by
  unfold checkout at h
  split at h
  · exfalso; injection h with h1a h1b; exact Except.noConfusion h1a
  next cart heqc =>
    split at h
    · exfalso; injection h with h1a h1b; exact Except.noConfusion h1a
    next hopen =>
      split at h
      · exfalso; injection h with h1a h1b; exact Except.noConfusion h1a
      next cf heqcf =>
        split at h
        · exfalso; injection h with h1a h1b; exact Except.noConfusion h1a
        split at h
        · exfalso; injection h with h1a h1b; exact Except.noConfusion h1a
        injection h with h1a h1b
        subst h1b
        refine ⟨?_, ?_, cart, heqc, ?_⟩
        · dsimp only
          rw [ins_cart_items, dec_cart_items]
        · dsimp only
          rw [ins_carts, dec_carts]
        · simpa using hopen

/-- Mapping a key-preserving function over cart_items preserves
key-distinctness. -/
theorem pairs_unique_map_keys (l : List CartItemRow) (f : CartItemRow → CartItemRow)
    (hf : ∀ ci, (f ci).cart_id = ci.cart_id ∧ (f ci).product_id = ci.product_id)
    (h : l.Pairwise (fun x y => ¬(x.cart_id = y.cart_id ∧ x.product_id = y.product_id))) :
    (l.map f).Pairwise (fun x y => ¬(x.cart_id = y.cart_id ∧ x.product_id = y.product_id)) :=
  List.Pairwise.map f
    (fun a b hab => by
      rw [(hf a).1, (hf a).2, (hf b).1, (hf b).2]
      exact hab)
    h

/-- The upsert preserves uniqueness of (cart, product) keys: the conflict
branch only rewrites quantities, and the insert branch only fires when no
row carries the key. -/
theorem pairs_unique_upsert (db : DB) (c p : Nat) (q price : Int) (curr : String)
    (h : pairs_unique db) : pairs_unique (upsert_cart_item db c p q price curr) := by
  unfold pairs_unique at *
  unfold upsert_cart_item
  split
  · dsimp only
    exact pairs_unique_map_keys _ _ (fun ci => by split <;> exact ⟨rfl, rfl⟩) h
  next hany =>
    dsimp only
    rw [List.pairwise_append]
    refine ⟨h, List.pairwise_singleton _ _, ?_⟩
    intro a ha b hb
    rw [List.mem_singleton] at hb
    subst hb
    rintro ⟨hc, hp⟩
    exact hany (List.any_eq_true.mpr ⟨a, ha, by simp [hc, hp]⟩)

/-- Every cart operation preserves uniqueness of (cart, product) keys in
cart_items. -/
theorem pairs_unique_applyOp (d : DB) (op : CartOp) (h : pairs_unique d) :
    pairs_unique (applyOp d op) := by
  cases op with
  | add c p q =>
    show pairs_unique (add_item d c p q).2
    rcases add_item_snd d c p q with h2 | ⟨price, curr, h2⟩
    · rw [h2]; exact h
    · rw [h2]; exact pairs_unique_upsert d c p q price curr h
  | setQty c p q =>
    show pairs_unique (set_item_quantity d c p q).2
    rcases set_item_quantity_snd d c p q with h2 | h2
    · rw [h2]; exact h
    · rw [h2]
      unfold pairs_unique set_qty_update at *
      dsimp only
      exact pairs_unique_map_keys _ _ (fun ci => by split <;> exact ⟨rfl, rfl⟩) h
  | remove c p =>
    show pairs_unique (remove_item d c p).2
    rcases remove_item_snd d c p with h2 | h2
    · rw [h2]; exact h
    · rw [h2]
      unfold pairs_unique remove_update at *
      dsimp only
      exact h.filter _
  | clear c =>
    show pairs_unique (clear_cart d c).2
    rcases clear_cart_snd d c with h2 | h2
    · rw [h2]; exact h
    · rw [h2]
      unfold pairs_unique clear_update at *
      dsimp only
      exact h.filter _
  | doCheckout c em =>
    show pairs_unique (checkout d c em).2
    rcases hck : checkout d c em with ⟨res, db2⟩
    cases res with
    | error e =>
      have h2 := checkout_error_snd d c em e db2 hck
      show pairs_unique db2
      rw [h2]
      exact h
    | ok r =>
      have h2 := checkout_ok_snd d c em r db2 hck
      show pairs_unique db2
      unfold pairs_unique at *
      rw [h2.1]
      exact h.filter _

/-- When no row carries the key, the upsert appends a fresh row. -/
theorem upsert_insert_shape (db : DB) (c p : Nat) (q price : Int) (curr : String)
    (hany : (db.cart_items.any
      (fun ci => ci.cart_id == c && ci.product_id == p)) = false) :
    upsert_cart_item db c p q price curr = { db with
      cart_items := db.cart_items ++
        [{ id := db.next_cart_item_id, cart_id := c, product_id := p,
           quantity := q, unit_price_cents := price, currency_code := curr }],
      next_cart_item_id := db.next_cart_item_id + 1 } := by
  unfold upsert_cart_item
  rw [if_neg (by rw [hany]; exact Bool.false_ne_true)]

/-- When a row carries the key, the upsert increments that row in place. -/
theorem upsert_update_shape (db : DB) (c p : Nat) (q price : Int) (curr : String)
    (hany : (db.cart_items.any
      (fun ci => ci.cart_id == c && ci.product_id == p)) = true) :
    upsert_cart_item db c p q price curr = { db with
      cart_items := db.cart_items.map (fun ci =>
        if ci.cart_id == c && ci.product_id == p then
          { ci with quantity := ci.quantity + q }
        else ci) } := by
  unfold upsert_cart_item
  rw [if_pos hany]

/-- C6: two adds of the same product with quantities a and b on a cart
that had no line for it leave exactly one line for the (cart, product)
pair, holding quantity a + b; and every cart operation preserves the
uniqueness of (cart, product) keys across cart_items. -/
theorem add_item_idempotent_upsert (db : DB) (c p : Nat) (a b : Int)
    (v1 v2 : Option CartView) (db1 db2 : DB)
    (h0 : lines_for db c p = [])
    (h1 : add_item db c p a = (.ok v1, db1))
    (h2 : add_item db1 c p b = (.ok v2, db2)) :
    (∃ row : CartItemRow, lines_for db2 c p = [row] ∧
       row.cart_id = c ∧ row.product_id = p ∧ row.quantity = a + b) ∧
    (∀ (d : DB) (op : CartOp), pairs_unique d → pairs_unique (applyOp d op)) := by
  refine ⟨?_, fun d op hu => pairs_unique_applyOp d op hu⟩
  rw [lines_for] at h0
  obtain ⟨p1, hp1, hdb1⟩ := add_item_ok_snd db c p a v1 db1 h1
  have hany0 : (db.cart_items.any
      (fun ci => ci.cart_id == c && ci.product_id == p)) = false := by
    rw [List.any_eq_false]
    intro ci hci
    have hnil := List.filter_eq_nil_iff.mp h0 ci hci
    simpa using hnil
  rw [upsert_insert_shape db c p a p1.price_cents p1.currency_code hany0] at hdb1
  obtain ⟨p2, hp2, hdb2⟩ := add_item_ok_snd db1 c p b v2 db2 h2
  subst hdb1
  have hany1 : ((db.cart_items ++
      [({ id := db.next_cart_item_id, cart_id := c, product_id := p,
          quantity := a, unit_price_cents := p1.price_cents,
          currency_code := p1.currency_code } : CartItemRow)]).any
      (fun ci => ci.cart_id == c && ci.product_id == p)) = true := by
    rw [List.any_eq_true]
    exact ⟨{ id := db.next_cart_item_id, cart_id := c, product_id := p,
             quantity := a, unit_price_cents := p1.price_cents,
             currency_code := p1.currency_code },
           List.mem_append_right _ (List.mem_singleton.mpr rfl), by simp⟩
  rw [upsert_update_shape _ c p b p2.price_cents p2.currency_code hany1] at hdb2
  subst hdb2
  refine ⟨⟨db.next_cart_item_id, c, p, a + b, p1.price_cents, p1.currency_code⟩,
    ?_, rfl, rfl, rfl⟩
  rw [lines_for]
  dsimp only
  rw [filter_map_comm _ _ _ (fun x => by
    by_cases hx : (x.cart_id == c && x.product_id == p) = true
    · simp [hx]
    · simp [hx])]
  rw [List.filter_append, h0]
  simp

/-- add_item on a cart whose row is not open fails with the 409 and
leaves the state unchanged. -/
theorem add_item_not_open (db : DB) (c : Nat) (cart : CartRow)
    (heq : _cart_exists_open db c = some cart) (hno : cart.status ≠ "open")
    (p : Nat) (q : Int) :
    add_item db c p q = (.error (err_cart_not_open_modify c), db) := by
  unfold add_item
  rw [heq]
  simp only [bne_iff_ne, ne_eq, hno, not_false_eq_true, if_true]

/-- set_item_quantity on a cart whose row is not open fails with the 409
and leaves the state unchanged. -/
theorem set_item_quantity_not_open (db : DB) (c : Nat) (cart : CartRow)
    (heq : _cart_exists_open db c = some cart) (hno : cart.status ≠ "open")
    (p : Nat) (q : Int) :
    set_item_quantity db c p q = (.error (err_cart_not_open_modify c), db) := by
  unfold set_item_quantity
  rw [heq]
  simp only [bne_iff_ne, ne_eq, hno, not_false_eq_true, if_true]

/-- remove_item on a cart whose row is not open fails with the 409 and
leaves the state unchanged. -/
theorem remove_item_not_open (db : DB) (c : Nat) (cart : CartRow)
    (heq : _cart_exists_open db c = some cart) (hno : cart.status ≠ "open")
    (p : Nat) :
    remove_item db c p = (.error (err_cart_not_open_modify c), db) := by
  unfold remove_item
  rw [heq]
  simp only [bne_iff_ne, ne_eq, hno, not_false_eq_true, if_true]

/-- clear_cart on a cart whose row is not open fails with the 409 and
leaves the state unchanged. -/
theorem clear_cart_not_open (db : DB) (c : Nat) (cart : CartRow)
    (heq : _cart_exists_open db c = some cart) (hno : cart.status ≠ "open") :
    clear_cart db c = (.error (err_cart_not_open_clear c), db) := by
  unfold clear_cart
  rw [heq]
  simp only [bne_iff_ne, ne_eq, hno, not_false_eq_true, if_true]

/-- checkout on a cart whose row is not open fails with the 409 and
leaves the state unchanged. -/
theorem checkout_not_open (db : DB) (c : Nat) (cart : CartRow)
    (heq : _cart_exists_open db c = some cart) (hno : cart.status ≠ "open")
    (em : Option String) :
    checkout db c em = (.error (err_cart_not_open_checkout c), db) := by
  unfold checkout
  rw [heq]
  simp only [bne_iff_ne, ne_eq, hno, not_false_eq_true, if_true]

/-- Every error return of add_item leaves the state unchanged. -/
theorem add_item_error_snd (db : DB) (c p : Nat) (q : Int) (e : ApiError)
    (db2 : DB) (h : add_item db c p q = (.error e, db2)) : db2 = db := by
  unfold add_item at h
  repeat' split at h
  all_goals try (injection h with h1a h1b; exact h1b.symm)
  simp only [] at h
  split at h
  · injection h with h1a h1b; exact h1b.symm
  · exfalso; injection h with h1a h1b; exact Except.noConfusion h1a

/-- Every error return of set_item_quantity leaves the state unchanged. -/
theorem set_item_quantity_error_snd (db : DB) (c p : Nat) (q : Int)
    (e : ApiError) (db2 : DB)
    (h : set_item_quantity db c p q = (.error e, db2)) : db2 = db := by
  unfold set_item_quantity at h
  repeat' split at h
  all_goals try (injection h with h1a h1b; exact h1b.symm)
  all_goals simp only [] at h
  all_goals repeat' split at h
  all_goals first
    | (injection h with h1a h1b; exact h1b.symm)
    | (exfalso; injection h with h1a h1b; exact Except.noConfusion h1a)

/-- Every error return of remove_item leaves the state unchanged. -/
theorem remove_item_error_snd (db : DB) (c p : Nat) (e : ApiError)
    (db2 : DB) (h : remove_item db c p = (.error e, db2)) : db2 = db := by
  unfold remove_item at h
  repeat' split at h
  all_goals try (injection h with h1a h1b; exact h1b.symm)
  all_goals simp only [] at h
  all_goals repeat' split at h
  all_goals first
    | (injection h with h1a h1b; exact h1b.symm)
    | (exfalso; injection h with h1a h1b; exact Except.noConfusion h1a)

/-- Every error return of clear_cart leaves the state unchanged. -/
theorem clear_cart_error_snd (db : DB) (c : Nat) (e : ApiError)
    (db2 : DB) (h : clear_cart db c = (.error e, db2)) : db2 = db := by
  unfold clear_cart at h
  repeat' split at h
  all_goals first
    | (injection h with h1a h1b; exact h1b.symm)
    | (exfalso; injection h with h1a h1b; exact Except.noConfusion h1a)

/-- The upsert never touches the carts table. -/
theorem upsert_carts (db : DB) (c p : Nat) (q price : Int) (curr : String) :
    (upsert_cart_item db c p q price curr).carts = db.carts := by
  unfold upsert_cart_item
  split <;> rfl

/-- A successful add_item implies its cart row was open. -/
theorem add_item_ok_cart (db : DB) (c p : Nat) (q : Int) (v : Option CartView)
    (db1 : DB) (h : add_item db c p q = (.ok v, db1)) :
    ∃ cart : CartRow, _cart_exists_open db c = some cart ∧ cart.status = "open" := by
  unfold add_item at h
  split at h
  · exfalso; injection h with h1a h1b; exact Except.noConfusion h1a
  next cart heqc =>
    split at h
    · exfalso; injection h with h1a h1b; exact Except.noConfusion h1a
    next hopen => exact ⟨cart, heqc, by simpa using hopen⟩

/-- A successful set_item_quantity implies its cart row was open, and its
resulting state is the line update. -/
theorem set_item_quantity_ok (db : DB) (c p : Nat) (q : Int)
    (v : Option CartView) (db1 : DB)
    (h : set_item_quantity db c p q = (.ok v, db1)) :
    db1 = set_qty_update db c p q ∧
    ∃ cart : CartRow, _cart_exists_open db c = some cart ∧ cart.status = "open" := by
  unfold set_item_quantity at h
  split at h
  · exfalso; injection h with h1a h1b; exact Except.noConfusion h1a
  next cart heqc =>
    split at h
    · exfalso; injection h with h1a h1b; exact Except.noConfusion h1a
    next hopen =>
      refine ⟨?_, cart, heqc, by simpa using hopen⟩
      split at h
      · exfalso; injection h with h1a h1b; exact Except.noConfusion h1a
      split at h
      · exfalso; injection h with h1a h1b; exact Except.noConfusion h1a
      simp only [] at h
      split at h
      · exfalso; injection h with h1a h1b; exact Except.noConfusion h1a
      split at h
      · exfalso; injection h with h1a h1b; exact Except.noConfusion h1a
      injection h with h1a h1b
      exact h1b.symm

/-- A successful remove_item implies its cart row was open, and its
resulting state is the line deletion. -/
theorem remove_item_ok (db : DB) (c p : Nat) (v : Option CartView) (db1 : DB)
    (h : remove_item db c p = (.ok v, db1)) :
    db1 = remove_update db c p ∧
    ∃ cart : CartRow, _cart_exists_open db c = some cart ∧ cart.status = "open" := by
  unfold remove_item at h
  split at h
  · exfalso; injection h with h1a h1b; exact Except.noConfusion h1a
  next cart heqc =>
    split at h
    · exfalso; injection h with h1a h1b; exact Except.noConfusion h1a
    next hopen =>
      refine ⟨?_, cart, heqc, by simpa using hopen⟩
      simp only [] at h
      split at h
      · exfalso; injection h with h1a h1b; exact Except.noConfusion h1a
      injection h with h1a h1b
      exact h1b.symm

/-- A successful clear_cart implies its cart row was open, and its
resulting state is the cart-wide deletion. -/
theorem clear_cart_ok (db : DB) (c : Nat) (v : String) (db1 : DB)
    (h : clear_cart db c = (.ok v, db1)) :
    db1 = clear_update db c ∧
    ∃ cart : CartRow, _cart_exists_open db c = some cart ∧ cart.status = "open" := by
  unfold clear_cart at h
  split at h
  · exfalso; injection h with h1a h1b; exact Except.noConfusion h1a
  next cart heqc =>
    split at h
    · exfalso; injection h with h1a h1b; exact Except.noConfusion h1a
    next hopen =>
      injection h with h1a h1b
      exact ⟨h1b.symm, cart, heqc, by simpa using hopen⟩

/-- Marking one cart checked_out in the carts table keeps any cart that
already read checked_out reading checked_out. -/
theorem find_status_map_checked_out (l : List CartRow) (c2 cid : Nat)
    (h : (l.find? (fun c => c.id == cid)).map (fun c => c.status) =
      some "checked_out") :
    ((l.map (fun cr => if cr.id == c2 then { cr with status := "checked_out" }
        else cr)).find? (fun c => c.id == cid)).map (fun c => c.status) =
      some "checked_out" := by
  induction l with
  | nil => simp at h
  | cons hd tl ih =>
    by_cases hid : (hd.id == cid) = true
    · rw [@List.find?_cons_of_pos _ (fun c : CartRow => c.id == cid) hd tl hid] at h
      have hs : hd.status = "checked_out" := by simpa using h
      rw [List.map_cons, List.find?_cons_of_pos]
      · by_cases h2 : (hd.id == c2) = true
        · simp [h2]
        · simp [h2, hs]
      · by_cases h2 : (hd.id == c2) = true
        · simpa [h2] using hid
        · simpa [h2] using hid
    · rw [@List.find?_cons_of_neg _ (fun c : CartRow => c.id == cid) hd tl hid] at h
      rw [List.map_cons, List.find?_cons_of_neg]
      · exact ih h
      · by_cases h2 : (hd.id == c2) = true
        · simpa [h2] using hid
        · simpa [h2] using hid

/-- Filtering a filtered list with a stronger predicate ignores the first
filter. -/
theorem filter_sub_filter {α : Type} (l : List α) (p q : α → Bool)
    (h : ∀ x, q x = true → p x = true) :
    (l.filter p).filter q = l.filter q := by
  induction l with
  | nil => rfl
  | cons hd tl ih =>
    by_cases hq : q hd = true
    · have hp := h hd hq
      simp [List.filter_cons, hp, hq, ih]
    · have hq2 : q hd = false := Bool.eq_false_iff.mpr hq
      by_cases hp : p hd = true
      · simp [List.filter_cons, hp, hq2, ih]
      · have hp2 : p hd = false := Bool.eq_false_iff.mpr hp
        simp [List.filter_cons, hp2, hq2, ih]

/-- Mapping a function that fixes every element selected by the filter
leaves the filtered list unchanged. -/
theorem filter_map_invariant {α : Type} (l : List α) (f : α → α) (q : α → Bool)
    (hq : ∀ x, q (f x) = q x) (hid : ∀ x ∈ l, q x = true → f x = x) :
    (l.map f).filter q = l.filter q := by
  rw [filter_map_comm l f q hq]
  have hfix : ∀ x ∈ l.filter q, f x = id x := fun x hx =>
    hid x (List.mem_filter.mp hx).1 (List.mem_filter.mp hx).2
  rw [List.map_congr_left hfix, List.map_id]

/-- An upsert keyed on another cart leaves this cart's items unchanged. -/
theorem cart_items_of_upsert_other (db : DB) (c2 p : Nat) (q price : Int)
    (curr : String) (cid : Nat) (hne : cid ≠ c2) :
    cart_items_of (upsert_cart_item db c2 p q price curr) cid =
      cart_items_of db cid := by
  unfold cart_items_of upsert_cart_item
  split
  · dsimp only
    refine filter_map_invariant _ _ _ (fun x => ?_) (fun x _ hx => ?_)
    · by_cases hc : (x.cart_id == c2 && x.product_id == p) = true
      · simp [hc]
      · simp [hc]
    · have hcc : x.cart_id = cid := by simpa using hx
      have : (x.cart_id == c2) = false := by simp [hcc, hne]
      simp [this]
  · dsimp only
    rw [List.filter_append]
    have : (Nat.decEq c2 cid).decide = false := by simp [Ne.symm hne]
    simp [Ne.symm hne]

/-- A quantity update keyed on another cart leaves this cart's items
unchanged. -/
theorem cart_items_of_setqty_other (db : DB) (c2 p : Nat) (q : Int)
    (cid : Nat) (hne : cid ≠ c2) :
    cart_items_of (set_qty_update db c2 p q) cid = cart_items_of db cid := by
  unfold cart_items_of set_qty_update
  dsimp only
  refine filter_map_invariant _ _ _ (fun x => ?_) (fun x _ hx => ?_)
  · by_cases hc : (x.cart_id == c2 && x.product_id == p) = true
    · simp [hc]
    · simp [hc]
  · have hcc : x.cart_id = cid := by simpa using hx
    have : (x.cart_id == c2) = false := by simp [hcc, hne]
    simp [this]

/-- A line deletion keyed on another cart leaves this cart's items
unchanged. -/
theorem cart_items_of_remove_other (db : DB) (c2 p : Nat) (cid : Nat)
    (hne : cid ≠ c2) :
    cart_items_of (remove_update db c2 p) cid = cart_items_of db cid := by
  unfold cart_items_of remove_update
  dsimp only
  refine filter_sub_filter _ _ _ (fun x hx => ?_)
  have hcc : x.cart_id = cid := by simpa using hx
  simp [hcc, hne]

/-- Clearing another cart leaves this cart's items unchanged. -/
theorem cart_items_of_clear_other (db : DB) (c2 : Nat) (cid : Nat)
    (hne : cid ≠ c2) :
    cart_items_of (clear_update db c2) cid = cart_items_of db cid := by
  unfold cart_items_of clear_update
  dsimp only
  refine filter_sub_filter _ _ _ (fun x hx => ?_)
  have hcc : x.cart_id = cid := by simpa using hx
  simp [hcc, hne]

/-- Two carts resolved by the same lookup with different statuses have
different ids. -/
theorem carts_ne_of_status (db : DB) (cid c2 : Nat) (cart0 cart2 : CartRow)
    (h0 : _cart_exists_open db cid = some cart0)
    (h2 : _cart_exists_open db c2 = some cart2)
    (hs0 : cart0.status = "checked_out") (hs2 : cart2.status = "open") :
    cid ≠ c2 := by
  intro hEq
  subst hEq
  rw [h0] at h2
  injection h2 with hcc
  rw [← hcc, hs0] at hs2
  exact absurd hs2 (by decide)

/-- One cart operation neither reopens a checked-out cart nor touches its
items. -/
theorem checked_out_step (db : DB) (op : CartOp) (cid : Nat)
    (h : cart_status db cid = some "checked_out") :
    cart_status (applyOp db op) cid = some "checked_out" ∧
    cart_items_of (applyOp db op) cid = cart_items_of db cid := by
  have hcart : ∃ cart : CartRow, _cart_exists_open db cid = some cart ∧
      cart.status = "checked_out" := by
    unfold cart_status at h
    rcases hfind : db.carts.find? (fun c => c.id == cid) with _ | cart
    · rw [hfind] at h; simp at h
    · rw [hfind] at h
      exact ⟨cart, hfind, by simpa using h⟩
  obtain ⟨cart0, hfind0, hst0⟩ := hcart
  cases op with
  | add c2 p q =>
    show cart_status (add_item db c2 p q).2 cid = _ ∧
      cart_items_of (add_item db c2 p q).2 cid = _
    rcases hres : add_item db c2 p q with ⟨res, db2⟩
    cases res with
    | error e =>
      have hdb := add_item_error_snd db c2 p q e db2 hres
      rw [show (Except.error e, db2).2 = db2 from rfl, hdb]
      exact ⟨h, rfl⟩
    | ok v =>
      obtain ⟨cart2, hfind2, hopen2⟩ := add_item_ok_cart db c2 p q v db2 hres
      have hne := carts_ne_of_status db cid c2 cart0 cart2 hfind0 hfind2 hst0 hopen2
      obtain ⟨p1, hp1, hdb⟩ := add_item_ok_snd db c2 p q v db2 hres
      rw [show (Except.ok v, db2).2 = db2 from rfl, hdb]
      constructor
      · unfold cart_status
        rw [upsert_carts]
        exact h
      · exact cart_items_of_upsert_other db c2 p q _ _ cid hne
  | setQty c2 p q =>
    show cart_status (set_item_quantity db c2 p q).2 cid = _ ∧
      cart_items_of (set_item_quantity db c2 p q).2 cid = _
    rcases hres : set_item_quantity db c2 p q with ⟨res, db2⟩
    cases res with
    | error e =>
      have hdb := set_item_quantity_error_snd db c2 p q e db2 hres
      rw [show (Except.error e, db2).2 = db2 from rfl, hdb]
      exact ⟨h, rfl⟩
    | ok v =>
      obtain ⟨hdb, cart2, hfind2, hopen2⟩ := set_item_quantity_ok db c2 p q v db2 hres
      have hne := carts_ne_of_status db cid c2 cart0 cart2 hfind0 hfind2 hst0 hopen2
      rw [show (Except.ok v, db2).2 = db2 from rfl, hdb]
      exact ⟨h, cart_items_of_setqty_other db c2 p q cid hne⟩
  | remove c2 p =>
    show cart_status (remove_item db c2 p).2 cid = _ ∧
      cart_items_of (remove_item db c2 p).2 cid = _
    rcases hres : remove_item db c2 p with ⟨res, db2⟩
    cases res with
    | error e =>
      have hdb := remove_item_error_snd db c2 p e db2 hres
      rw [show (Except.error e, db2).2 = db2 from rfl, hdb]
      exact ⟨h, rfl⟩
    | ok v =>
      obtain ⟨hdb, cart2, hfind2, hopen2⟩ := remove_item_ok db c2 p v db2 hres
      have hne := carts_ne_of_status db cid c2 cart0 cart2 hfind0 hfind2 hst0 hopen2
      rw [show (Except.ok v, db2).2 = db2 from rfl, hdb]
      exact ⟨h, cart_items_of_remove_other db c2 p cid hne⟩
  | clear c2 =>
    show cart_status (clear_cart db c2).2 cid = _ ∧
      cart_items_of (clear_cart db c2).2 cid = _
    rcases hres : clear_cart db c2 with ⟨res, db2⟩
    cases res with
    | error e =>
      have hdb := clear_cart_error_snd db c2 e db2 hres
      rw [show (Except.error e, db2).2 = db2 from rfl, hdb]
      exact ⟨h, rfl⟩
    | ok v =>
      obtain ⟨hdb, cart2, hfind2, hopen2⟩ := clear_cart_ok db c2 v db2 hres
      have hne := carts_ne_of_status db cid c2 cart0 cart2 hfind0 hfind2 hst0 hopen2
      rw [show (Except.ok v, db2).2 = db2 from rfl, hdb]
      exact ⟨h, cart_items_of_clear_other db c2 cid hne⟩
  | doCheckout c2 em =>
    show cart_status (checkout db c2 em).2 cid = _ ∧
      cart_items_of (checkout db c2 em).2 cid = _
    rcases hres : checkout db c2 em with ⟨res, db2⟩
    cases res with
    | error e =>
      have hdb := checkout_error_snd db c2 em e db2 hres
      rw [show (Except.error e, db2).2 = db2 from rfl, hdb]
      exact ⟨h, rfl⟩
    | ok r =>
      obtain ⟨hitems, hcarts, cart2, hfind2, hopen2⟩ :=
        checkout_ok_snd db c2 em r db2 hres
      have hne := carts_ne_of_status db cid c2 cart0 cart2 hfind0 hfind2 hst0 hopen2
      rw [show (Except.ok r, db2).2 = db2 from rfl]
      constructor
      · unfold cart_status
        rw [hcarts]
        unfold cart_status at h
        exact find_status_map_checked_out db.carts c2 cid h
      · unfold cart_items_of
        rw [hitems]
        refine filter_sub_filter _ _ _ (fun x hx => ?_)
        have hcc : x.cart_id = cid := by simpa using hx
        simp [hcc, hne]

/-- No sequence of cart operations reopens a checked-out cart or touches
its items. -/
theorem checked_out_ops (cid : Nat) (ops : List CartOp) :
    ∀ db : DB, cart_status db cid = some "checked_out" →
      cart_status (applyOps db ops) cid = some "checked_out" ∧
      cart_items_of (applyOps db ops) cid = cart_items_of db cid := by
  induction ops with
  | nil => intro db h; exact ⟨h, rfl⟩
  | cons op rest ih =>
    intro db h
    have hstep := checked_out_step db op cid h
    have hih := ih (applyOp db op) hstep.1
    exact ⟨hih.1, hih.2.trans hstep.2⟩

/-- C5: a CHECKED_OUT cart is terminal: no sequence of cart operations
returns it to open or touches its items, every mutator on it fails with
the 409 cart-not-open error leaving the state unchanged, and a second
checkout of it fails the same way without effect. -/
theorem checked_out_cart_terminal (db : DB) (cid : Nat)
    (h : cart_status db cid = some "checked_out") :
    (∀ ops : List CartOp,
       cart_status (applyOps db ops) cid = some "checked_out" ∧
       cart_items_of (applyOps db ops) cid = cart_items_of db cid) ∧
    (∀ (p : Nat) (q : Int),
       add_item db cid p q = (.error (err_cart_not_open_modify cid), db)) ∧
    (∀ (p : Nat) (q : Int),
       set_item_quantity db cid p q = (.error (err_cart_not_open_modify cid), db)) ∧
    (∀ p : Nat, remove_item db cid p = (.error (err_cart_not_open_modify cid), db)) ∧
    clear_cart db cid = (.error (err_cart_not_open_clear cid), db) ∧
    (∀ em : Option String,
       checkout db cid em = (.error (err_cart_not_open_checkout cid), db)) := by
  have hcart : ∃ cart : CartRow, _cart_exists_open db cid = some cart ∧
      cart.status = "checked_out" := by
    unfold cart_status at h
    rcases hfind : db.carts.find? (fun c => c.id == cid) with _ | cart
    · rw [hfind] at h; simp at h
    · rw [hfind] at h
      exact ⟨cart, hfind, by simpa using h⟩
  obtain ⟨cart0, hfind0, hst0⟩ := hcart
  have hno : cart0.status ≠ "open" := by rw [hst0]; decide
  exact ⟨fun ops => checked_out_ops cid ops db h,
         fun p q => add_item_not_open db cid cart0 hfind0 hno p q,
         fun p q => set_item_quantity_not_open db cid cart0 hfind0 hno p q,
         fun p => remove_item_not_open db cid cart0 hfind0 hno p,
         clear_cart_not_open db cid cart0 hfind0 hno,
         fun em => checkout_not_open db cid cart0 hfind0 hno em⟩

/-- Witness for C5: on the checked-out cart 1, an add followed by a
checkout leaves the status checked_out and the items untouched, and every
mutator and a second checkout fail with the 409 errors. -/
theorem checked_out_cart_terminal_witness :
    cart_status dbCheckedOut 1 = some "checked_out" ∧
    (cart_status (applyOps dbCheckedOut
        [CartOp.add 1 2 1, CartOp.doCheckout 1 none]) 1 = some "checked_out" ∧
     cart_items_of (applyOps dbCheckedOut
        [CartOp.add 1 2 1, CartOp.doCheckout 1 none]) 1 =
       cart_items_of dbCheckedOut 1) ∧
    add_item dbCheckedOut 1 2 1 =
      (.error (err_cart_not_open_modify 1), dbCheckedOut) ∧
    set_item_quantity dbCheckedOut 1 2 1 =
      (.error (err_cart_not_open_modify 1), dbCheckedOut) ∧
    remove_item dbCheckedOut 1 2 =
      (.error (err_cart_not_open_modify 1), dbCheckedOut) ∧
    clear_cart dbCheckedOut 1 =
      (.error (err_cart_not_open_clear 1), dbCheckedOut) ∧
    checkout dbCheckedOut 1 none =
      (.error (err_cart_not_open_checkout 1), dbCheckedOut) :=
  ⟨by decide,
   (checked_out_cart_terminal dbCheckedOut 1 (by decide)).1
     [CartOp.add 1 2 1, CartOp.doCheckout 1 none],
   (checked_out_cart_terminal dbCheckedOut 1 (by decide)).2.1 2 1,
   (checked_out_cart_terminal dbCheckedOut 1 (by decide)).2.2.1 2 1,
   (checked_out_cart_terminal dbCheckedOut 1 (by decide)).2.2.2.1 2,
   (checked_out_cart_terminal dbCheckedOut 1 (by decide)).2.2.2.2.1,
   (checked_out_cart_terminal dbCheckedOut 1 (by decide)).2.2.2.2.2 none⟩

/-- C4: order items are immutable snapshots: after a successful checkout,
the order_items rows recorded for the new order are exactly the returned
items; their product name, quantity, unit price and line total are the
values of the cart lines read in the checkout transaction; and after any
later product mutation (name or price change, deactivation) the recorded
rows read back unchanged. -/
theorem order_items_snapshot_immutable (db : DB) (cart_id : Nat)
    (email : Option String) (r : OrderResult) (db' : DB) (cv : CartView)
    (hcv : _get_cart_with_items db cart_id = some cv)
    (hclean : ∀ oi ∈ db.order_items, oi.order_id ≠ db.next_order_id)
    (h : checkout db cart_id email = (.ok r, db')) :
    order_items_view db' r.order.id = r.items ∧
    r.items.map (fun oi =>
      (oi.product_name, oi.quantity, oi.unit_price_cents, oi.line_total_cents)) =
      cv.items.map (fun it =>
        (it.product.name, it.quantity, it.unit_price_cents,
         it.quantity * it.unit_price_cents)) ∧
    (∀ (pid : Nat) (nm : String) (pr : Int) (ac : Bool),
       order_items_view (update_product db' pid nm pr ac) r.order.id = r.items) := by
  unfold checkout at h
  split at h
  · exfalso; injection h with h1a h1b; exact Except.noConfusion h1a
  next cart heqc =>
    split at h
    · exfalso; injection h with h1a h1b; exact Except.noConfusion h1a
    next hopen =>
      split at h
      · exfalso; injection h with h1a h1b; exact Except.noConfusion h1a
      next cf heqcf =>
        split at h
        · exfalso; injection h with h1a h1b; exact Except.noConfusion h1a
        split at h
        · exfalso; injection h with h1a h1b; exact Except.noConfusion h1a
        rw [hcv] at heqcf
        injection heqcf with hcf
        subst hcf
        injection h with hval hsnd
        injection hval with hr
        subst hr
        subst hsnd
        refine ⟨?_, ?_, ?_⟩
        · rw [order_items_view]
          dsimp only
          rw [insert_order_items_order_items]
          dsimp only
          rw [dec_order_items, dec_next_order_id, List.filter_append]
          rw [List.filter_eq_nil_iff.mpr (fun oi hoi => by
            have hne := hclean oi hoi
            simpa using hne)]
          rw [List.nil_append]
          exact List.filter_eq_self.mpr (fun oi hoi => by
            have hid := insert_order_items_ids _ _ _ _ hoi
            simp [hid, dec_next_order_id])
        · dsimp only
          exact insert_order_items_values _ _ _
        · intro pid nm pr ac
          rw [update_product, order_items_view]
          dsimp only
          rw [insert_order_items_order_items]
          dsimp only
          rw [dec_order_items, dec_next_order_id, List.filter_append]
          rw [List.filter_eq_nil_iff.mpr (fun oi hoi => by
            have hne := hclean oi hoi
            simpa using hne)]
          rw [List.nil_append]
          exact List.filter_eq_self.mpr (fun oi hoi => by
            have hid := insert_order_items_ids _ _ _ _ hoi
            simp [hid, dec_next_order_id])

/-- Witness for C4: the one-line checkout of dbSnap records the Widget
snapshot row, and renaming, repricing and deactivating the product leaves
the recorded order items unchanged. -/
theorem order_items_snapshot_immutable_witness :
    _get_cart_with_items dbSnap 1 = some cvSnap ∧
    (∀ oi ∈ dbSnap.order_items, oi.order_id ≠ dbSnap.next_order_id) ∧
    checkout dbSnap 1 none = (.ok rSnap, dbSnapAfter) ∧
    order_items_view dbSnapAfter rSnap.order.id = rSnap.items ∧
    rSnap.items.map (fun oi =>
      (oi.product_name, oi.quantity, oi.unit_price_cents, oi.line_total_cents)) =
      cvSnap.items.map (fun it =>
        (it.product.name, it.quantity, it.unit_price_cents,
         it.quantity * it.unit_price_cents)) ∧
    order_items_view (update_product dbSnapAfter 2 "Renamed" 777 false)
      rSnap.order.id = rSnap.items :=
  ⟨by decide, by decide, by decide,
   (order_items_snapshot_immutable dbSnap 1 none rSnap dbSnapAfter cvSnap
     (by decide) (by decide) (by decide)).1,
   (order_items_snapshot_immutable dbSnap 1 none rSnap dbSnapAfter cvSnap
     (by decide) (by decide) (by decide)).2.1,
   (order_items_snapshot_immutable dbSnap 1 none rSnap dbSnapAfter cvSnap
     (by decide) (by decide) (by decide)).2.2 2 "Renamed" 777 false⟩

/-- Witness for C6: adding product 2 with quantity 1 and then quantity 2
to a cart that had no line for it leaves a single line of quantity 3. -/
theorem add_item_idempotent_upsert_witness :
    lines_for dbNoLine 1 2 = [] ∧
    add_item dbNoLine 1 2 1 = (.ok (_get_cart_with_items dbAdd1 1), dbAdd1) ∧
    add_item dbAdd1 1 2 2 = (.ok (_get_cart_with_items dbAdd2 1), dbAdd2) ∧
    ((∃ row : CartItemRow, lines_for dbAdd2 1 2 = [row] ∧
        row.cart_id = 1 ∧ row.product_id = 2 ∧ row.quantity = 1 + 2) ∧
     (∀ (d : DB) (op : CartOp), pairs_unique d → pairs_unique (applyOp d op))) :=
  ⟨by decide, by decide, by decide,
   add_item_idempotent_upsert dbNoLine 1 2 1 2
     (_get_cart_with_items dbAdd1 1) (_get_cart_with_items dbAdd2 1)
     dbAdd1 dbAdd2 (by decide) (by decide) (by decide)⟩

/-- C10: when add_item hits an existing (cart, product) line, the upsert
changes only that line and only its quantity: the resulting row keeps the
id, unit price and currency captured at first insertion, every other
cart-items row is untouched, and every other table is untouched —
regardless of the product's current price. -/
theorem add_item_preserves_captured_price (db : DB) (cart_id product_id : Nat)
    (a : Int) (row : CartItemRow) (v : Option CartView) (db1 : DB)
    (h0 : lines_for db cart_id product_id = [row])
    (h1 : add_item db cart_id product_id a = (.ok v, db1)) :
    db1.cart_items = db.cart_items.map (fun ci =>
      if ci.cart_id == cart_id && ci.product_id == product_id then
        { ci with quantity := ci.quantity + a }
      else ci) ∧
    db1.products = db.products ∧ db1.inventory = db.inventory ∧
    db1.carts = db.carts ∧ db1.orders = db.orders ∧
    db1.order_items = db.order_items ∧
    lines_for db1 cart_id product_id =
      [⟨row.id, row.cart_id, row.product_id, row.quantity + a,
        row.unit_price_cents, row.currency_code⟩] := by
  have hmem : row ∈ db.cart_items.filter
      (fun ci => ci.cart_id == cart_id && ci.product_id == product_id) := by
    rw [lines_for] at h0
    rw [h0]
    exact List.mem_singleton.mpr rfl
  have hrow := List.mem_filter.mp hmem
  have hany : (db.cart_items.any
      (fun ci => ci.cart_id == cart_id && ci.product_id == product_id)) = true :=
    List.any_eq_true.mpr ⟨row, hrow.1, hrow.2⟩
  unfold add_item at h1
  repeat' split at h1
  all_goals try (exfalso; injection h1 with h1a h1b; exact Except.noConfusion h1a)
  simp only [] at h1
  split at h1
  · exfalso; injection h1 with h1a h1b; exact Except.noConfusion h1a
  injection h1 with h1a h1b
  subst h1b
  unfold upsert_cart_item
  rw [if_pos hany]
  refine ⟨rfl, rfl, rfl, rfl, rfl, rfl, ?_⟩
  rw [lines_for]
  dsimp only
  have hcomm := filter_map_comm db.cart_items
    (fun ci => if ci.cart_id == cart_id && ci.product_id == product_id then
       { ci with quantity := ci.quantity + a } else ci)
    (fun ci => ci.cart_id == cart_id && ci.product_id == product_id)
    (by
      intro x
      by_cases hx : (x.cart_id == cart_id && x.product_id == product_id) = true
      · simp [hx]
      · simp [hx])
  simp only [hcomm]
  rw [lines_for] at h0
  rw [h0]
  simp only [List.map_cons, List.map_nil, hrow.2, if_true]

/-- Witness for C10: the line captured at 100 cents is incremented from 1
to 3 units while keeping its 100-cent price, although the product now
costs 999 cents. -/
theorem add_item_preserves_captured_price_witness :
    lines_for dbPriceChange 1 2 = [⟨1, 1, 2, 1, 100, "USD"⟩] ∧
    dbPriceChange.products.map (fun p => p.price_cents) = [999] ∧
    (dbPriceChange1.cart_items = dbPriceChange.cart_items.map (fun ci =>
       if ci.cart_id == 1 && ci.product_id == 2 then
         { ci with quantity := ci.quantity + 2 }
       else ci) ∧
     dbPriceChange1.products = dbPriceChange.products ∧
     dbPriceChange1.inventory = dbPriceChange.inventory ∧
     dbPriceChange1.carts = dbPriceChange.carts ∧
     dbPriceChange1.orders = dbPriceChange.orders ∧
     dbPriceChange1.order_items = dbPriceChange.order_items ∧
     lines_for dbPriceChange1 1 2 = [⟨1, 1, 2, 1 + 2, 100, "USD"⟩]) :=
  ⟨by decide, by decide,
   add_item_preserves_captured_price dbPriceChange 1 2 2 ⟨1, 1, 2, 1, 100, "USD"⟩
     (_get_cart_with_items dbPriceChange1 1) dbPriceChange1
     (by decide) (by decide)⟩

end ECommerce
